import Mathlib

/-!
Verification of the ownership-lifecycle demonstration in `src/main.cpp`
(`unique_pointer_example`, `shared_pointer_example`) together with the
two helper routines `modify_vector` and `output_values`.

The embedding translates the C++ source into Lean:

* The two-level hierarchy `A` / `B : A` of the pointer examples is a
  `Kind`.  Constructors and destructors print fixed lines; those lines
  (including the source's typo `"B:A Destoyed"`) are kept verbatim as
  the observable event trace.
* `to_string` is `virtual` in the source, so calling it dispatches on
  the dynamic `Kind` of the referenced object.
* The destructors `~A` / `~B` are NOT virtual in the source.  A
  `unique_ptr<T>` destroys through `default_delete<T>`, i.e. through
  the static type `T`; hence `uniqueReset` emits the teardown chain of
  the pointer's static type.  (Deleting a `B` through a `unique_ptr<A>`
  is undefined behaviour in C++ because `~A` is non-virtual; the model
  records what implementations do: only `~A` runs.)
* A `shared_ptr` created by `make_shared<T>` stores its deleter in the
  control block at creation, so destruction always runs the full chain
  of the dynamic type, independent of later casts.  The shared-pointer
  world is a heap: a list of objects, each with its dynamic `Kind` and
  its use count; a `SharedPtr` is an optional heap index (the raw
  address returned by `.get()`).
-/

/-- The dynamic type of an object of the demo hierarchy: `A` (base) or
`B` (derived from `A`). -/
inductive Kind : Type
  | A : Kind
  | B : Kind
deriving DecidableEq, Repr

/-- Lines printed while constructing an object of the given dynamic
kind: the base subobject is constructed first (`A()` prints
`"A Created"`), then the derived part (`B()` prints `"B:A Created"`). -/
def ctorTrace : Kind → List String
  | Kind.A => ["A Created"]
  | Kind.B => ["A Created", "B:A Created"]

/-- Lines printed while destroying an object through static type `k`
(the destructors are non-virtual): `~B` prints `"B:A Destoyed"` (typo
as in the source) and then the base `~A` prints `"A Destroyed"`. -/
def dtorTrace : Kind → List String
  | Kind.A => ["A Destroyed"]
  | Kind.B => ["B:A Destoyed", "A Destroyed"]

/-- The line printed by the virtual `to_string`, dispatched on the
dynamic kind of the object. -/
def toStringLine : Kind → String
  | Kind.A => "I am an A"
  | Kind.B => "I am a B"

/-- Value of the `member` field of `shared_pointer_example`'s structs
after construction: `A()` sets `member = "A"`, and for a `B` the
derived constructor then overwrites it with `"B"`. -/
def memberOf : Kind → String
  | Kind.A => "A"
  | Kind.B => "B"

/-! ## Exclusive ownership (`unique_ptr`, lines 87–123) -/

/-- A `unique_ptr<static>` owning (or not) an object whose dynamic type
is `owned`. -/
structure UniquePtr : Type where
  static : Kind
  owned : Option Kind
deriving DecidableEq, Repr

/-- `make_unique<k>()`: the new owner plus the construction events. -/
def makeUnique (k : Kind) : UniquePtr × List String :=
  (⟨k, some k⟩, ctorTrace k)

/-- Converting a `unique_ptr<B>` into a `unique_ptr<A>`
(`unique_ptr<A> ptrC = make_unique<B>()`, line 121): the static type
becomes the base, the owned object is unchanged. -/
def uniqueUpcast (p : UniquePtr) : UniquePtr :=
  ⟨Kind.A, p.owned⟩

/-- `p = nullptr` (lines 117–118) or scope exit: if `p` owns an object,
`default_delete<static>` runs the (non-virtual) destructor chain of the
static type; returns the nulled pointer and the emitted events. -/
def uniqueReset (p : UniquePtr) : UniquePtr × List String :=
  match p.owned with
  | none => (⟨p.static, none⟩, [])
  | some _ => (⟨p.static, none⟩, dtorTrace p.static)

/-- `p->to_string()`: virtual dispatch on the dynamic kind of the owned
object; `none` for a null owner. -/
def uniqueToString (p : UniquePtr) : Option String :=
  p.owned.map toStringLine

/-- `unique_ptr<A> ptrA = make_unique<A>();` (line 111). -/
def ptrA : UniquePtr := (makeUnique Kind.A).1

/-- `unique_ptr<B> ptrB = make_unique<B>();` (line 114). -/
def ptrB : UniquePtr := (makeUnique Kind.B).1

/-- `unique_ptr<A> ptrC = make_unique<B>();` (line 121). -/
def ptrC : UniquePtr := uniqueUpcast (makeUnique Kind.B).1

/-- The destruction events of `ptrA = nullptr; ptrB = nullptr;`
(lines 117–118), in program order. -/
def uniqueReleaseTrace : List String :=
  (uniqueReset ptrA).2 ++ (uniqueReset ptrB).2

/-! ## Shared ownership (`shared_ptr`, lines 130–180) -/

/-- A heap cell of the shared-pointer world: the dynamic kind fixed at
`make_shared` time (which also fixes the control block's deleter) and
the current use count (`0` = already destroyed). -/
structure SharedObj : Type where
  kind : Kind
  count : Nat
deriving DecidableEq, Repr

/-- The shared-pointer heap: cell `i` is the object at address `i`. -/
abbrev Heap : Type := List SharedObj

/-- A `shared_ptr`: either null or the address of a heap cell. `.get()`
returns exactly this address. -/
abbrev SharedPtr : Type := Option Nat

/-- `make_shared<k>()`: allocates a fresh cell with use count 1 and
emits the construction events. -/
def makeShared (k : Kind) (h : Heap) : SharedPtr × Heap × List String :=
  (some h.length, h ++ [⟨k, 1⟩], ctorTrace k)

/-- Copying a shared pointer (copy-initialisation `ptrB = ptrA`, and
the share created by `static_pointer_cast<A>int`): same address, use
count incremented; copying a null pointer is a no-op. -/
def sharedCopy (p : SharedPtr) (h : Heap) : SharedPtr × Heap :=
  match p with
  | none => (none, h)
  | some i =>
    match h[i]? with
    | none => (some i, h)
    | some o => (some i, h.set i ⟨o.kind, o.count + 1⟩)

/-- Releasing one owner (`p = nullptr`): decrements the use count; when
the last owner releases, the control block runs the full destructor
chain of the creation-time kind and the count drops to 0. -/
def sharedReset (p : SharedPtr) (h : Heap) : Heap × List String :=
  match p with
  | none => (h, [])
  | some i =>
    match h[i]? with
    | none => (h, [])
    | some o =>
      if o.count ≤ 1 then (h.set i ⟨o.kind, 0⟩, dtorTrace o.kind)
      else (h.set i ⟨o.kind, o.count - 1⟩, [])

/-- `p.use_count()`: 0 for a null pointer, else the cell's count. -/
def useCount (p : SharedPtr) (h : Heap) : Nat :=
  match p with
  | none => 0
  | some i =>
    match h[i]? with
    | none => 0
    | some o => o.count

/-- `p.get()`: the raw address (identity marker); `none` is `nullptr`. -/
def sharedGet (p : SharedPtr) : Option Nat := p

/-- `p->member`: the `member` string of the referenced object. -/
def sharedMember (p : SharedPtr) (h : Heap) : Option String :=
  match p with
  | none => none
  | some i => (h[i]?).map (fun o => memberOf o.kind)

/-- `p->to_string()`: virtual dispatch on the referenced object's
dynamic kind. -/
def sharedToString (p : SharedPtr) (h : Heap) : Option String :=
  match p with
  | none => none
  | some i => (h[i]?).map (fun o => toStringLine o.kind)

/-- `dynamic_pointer_cast<B>(p)` (line 175): inspects the dynamic type
of the referenced object; on a match it returns a co-owning pointer to
the same address (count incremented), otherwise a null pointer.  It is
total — it never throws. -/
def dynCastB (p : SharedPtr) (h : Heap) : SharedPtr × Heap :=
  match p with
  | none => (none, h)
  | some i =>
    match h[i]? with
    | none => (none, h)
    | some o =>
      if o.kind = Kind.B then (some i, h.set i ⟨o.kind, o.count + 1⟩)
      else (none, h)

/-! ### The `shared_pointer_example` scenario, first segment
(lines 148–161): `ptrA = make_shared<A>(); ptrB = ptrA;` prints, then
`ptrA = nullptr; ptrB = nullptr;`. -/

/-- State after `shared_ptr<A> ptrA = make_shared<A>();` (line 148). -/
def sharedStep1 : SharedPtr × Heap × List String := makeShared Kind.A []

/-- The pointer `ptrA` of line 148. -/
def sPtrA : SharedPtr := sharedStep1.1

/-- State after `shared_ptr<A> ptrB = ptrA;` (line 149). -/
def sharedStep2 : SharedPtr × Heap := sharedCopy sPtrA sharedStep1.2.1

/-- The pointer `ptrB` of line 149. -/
def sPtrB : SharedPtr := sharedStep2.1

/-- The heap at the print statements (lines 151–158), both owners live. -/
def sharedHeapLive : Heap := sharedStep2.2

/-- `ptrA = nullptr;` (line 160): heap and emitted events. -/
def sharedRelease1 : Heap × List String := sharedReset sPtrA sharedHeapLive

/-- `ptrB = nullptr;` (line 161): heap and emitted events. -/
def sharedRelease2 : Heap × List String := sharedReset sPtrB sharedRelease1.1

/-! ### The pointer-casting segment (lines 164–178):
`basePtr = make_shared<A>(); derivedPtr = make_shared<B>();
basePtr = static_pointer_cast<A>(derivedPtr);
downCastPtr = dynamic_pointer_cast<B>(basePtr);
derivedPtr.use_count()`. -/

/-- State after `auto basePtr = make_shared<A>();` (line 166). -/
def castStep1 : SharedPtr × Heap × List String := makeShared Kind.A []

/-- The original `basePtr` of line 166. -/
def basePtr0 : SharedPtr := castStep1.1

/-- State after `auto derivedPtr = make_shared<B>();` (line 167). -/
def castStep2 : SharedPtr × Heap × List String := makeShared Kind.B castStep1.2.1

/-- The pointer `derivedPtr` of line 167. -/
def derivedPtr : SharedPtr := castStep2.1

/-- `static_pointer_cast<A>(derivedPtr)` (line 170): a co-owning copy
of `derivedPtr` at static type `A`. -/
def castStep3 : SharedPtr × Heap := sharedCopy derivedPtr castStep2.2.1

/-- The assignment `basePtr = ...` (line 170) then releases the object
`basePtr` previously owned. -/
def castStep4 : Heap × List String := sharedReset basePtr0 castStep3.2

/-- The value of `basePtr` after line 170. -/
def basePtr : SharedPtr := castStep3.1

/-- `auto downCastPtr = dynamic_pointer_cast<B>(basePtr);` (line 175). -/
def castStep5 : SharedPtr × Heap := dynCastB basePtr castStep4.1

/-- The pointer `downCastPtr` of line 175. -/
def downCastPtr : SharedPtr := castStep5.1

/-- The heap at the final report (line 178), all three pointers live. -/
def castHeapFinal : Heap := castStep5.2

/-! ## `modify_vector` (lines 23–28) and `output_values` (lines 64–79) -/

/-- One `rand()` call per element, in element order: element `k` of the
traversal is assigned `rand() % 10`.  `r n` is the value of the
`n`-th `rand()` call; C guarantees `rand()` is non-negative, so the
stream is over `Nat`. -/
def modifyVectorAux (r : Nat → Nat) : Nat → List Int → List Int
  | _, [] => []
  | k, _ :: xs => ((r k % 10 : Nat) : Int) :: modifyVectorAux r (k + 1) xs

/-- `modify_vector` (lines 23–28, instantiated at `vector<int>`): the
ranged-for loop overwrites each element with `rand() % 10`. -/
def modify_vector (r : Nat → Nat) (v : List Int) : List Int :=
  modifyVectorAux r 0 v

/-- The line printed by the zero-argument overload of `output_values`
(line 66). -/
def finalCallLine : String :=
  "This is the final function call.. I am an empty function"

/-- The variadic `output_values` (lines 64–79), with each argument
represented by the text `cout` prints for it: the head argument is
printed on its own line, then the function recurses on the tail; the
empty overload prints the fixed final line. -/
def output_values : List String → List String
  | [] => [finalCallLine]
  | x :: xs => x :: output_values xs

/-! ## Theorems -/

/-- C1: the claim asserts derived-first destruction also "when the
exclusive owner is typed as Base but owns a Derived instance".  The
code's destructors are non-virtual, so releasing
`unique_ptr<A> ptrC = make_unique<B>()` runs only the base destructor
(`delete` through `A*` — undefined behaviour in C++): the emitted trace
is exactly `["A Destroyed"]` and contains no derived teardown event. -/
theorem c1_base_typed_owner_of_derived_runs_base_dtor_only :
    (uniqueReset ptrC).2 = ["A Destroyed"] ∧
    "B:A Destoyed" ∉ (uniqueReset ptrC).2 ∧
    ctorTrace Kind.B = ["A Created", "B:A Created"] := by
  refine ⟨rfl, ?_, rfl⟩
  decide

/-- C2: `dynamic_pointer_cast<B>` on a valid shared pointer returns a
non-null pointer exactly when the referenced object's dynamic kind is
`B`; on success it co-owns the same object (same address, use count
incremented), otherwise it is null.  In the demonstrated path,
`basePtr` (after the upcast assignment of line 170) refers to the `B`
cell, and `downCastPtr` is the non-null co-owner of that same cell. -/
theorem c2_dynamic_cast_succeeds_iff_derived (h : Heap) (i : Nat) (o : SharedObj)
    (hv : h[i]? = some o) :
    ((dynCastB (some i) h).1 = if o.kind = Kind.B then some i else none) ∧
    ((dynCastB (some i) h).1 ≠ none ↔ o.kind = Kind.B) ∧
    (o.kind = Kind.B → useCount (some i) (dynCastB (some i) h).2 = o.count + 1) ∧
    basePtr = some 1 ∧ castStep4.1[1]? = some ⟨Kind.B, 2⟩ ∧ downCastPtr = some 1 := by
  have hlen : i < h.length := by
    by_contra hc
    push_neg at hc
    rw [List.getElem?_eq_none hc] at hv
    exact Option.noConfusion hv
  have h1 : (dynCastB (some i) h).1 = if o.kind = Kind.B then some i else none := by
    by_cases hk : o.kind = Kind.B <;> simp [dynCastB, hv, hk]
  refine ⟨h1, ?_, ?_, by decide, by decide, by decide⟩
  · rw [h1]
    by_cases hk : o.kind = Kind.B <;> simp [hk]
  · intro hk
    simp [dynCastB, hv, hk, useCount, List.getElem?_set_eq_of_lt _ hlen]

/-- C2 witness: instantiated at a one-cell heap holding a `B`. -/
theorem c2_dynamic_cast_witness :
    ([⟨Kind.B, 1⟩] : Heap)[0]? = some ⟨Kind.B, 1⟩ ∧
    (((dynCastB (some 0) [⟨Kind.B, 1⟩]).1 =
        if (⟨Kind.B, 1⟩ : SharedObj).kind = Kind.B then some 0 else none) ∧
      ((dynCastB (some 0) [⟨Kind.B, 1⟩]).1 ≠ none ↔
        (⟨Kind.B, 1⟩ : SharedObj).kind = Kind.B) ∧
      ((⟨Kind.B, 1⟩ : SharedObj).kind = Kind.B →
        useCount (some 0) (dynCastB (some 0) [⟨Kind.B, 1⟩]).2 =
          (⟨Kind.B, 1⟩ : SharedObj).count + 1) ∧
      basePtr = some 1 ∧ castStep4.1[1]? = some ⟨Kind.B, 2⟩ ∧ downCastPtr = some 1) :=
  ⟨by decide, c2_dynamic_cast_succeeds_iff_derived [⟨Kind.B, 1⟩] 0 ⟨Kind.B, 1⟩ (by decide)⟩

/-- C3: for a shared object with exactly two co-owners, releasing the
first owner emits no destruction event and leaves the use count at 1;
releasing the second (last) owner then emits the object's full
destructor chain — a non-empty event sequence emitted exactly at that
point and nowhere earlier. -/
theorem c3_two_owners_destroy_once_after_last (h : Heap) (i : Nat) (k : Kind)
    (hv : h[i]? = some ⟨k, 2⟩) :
    (sharedReset (some i) h).2 = [] ∧
    useCount (some i) (sharedReset (some i) h).1 = 1 ∧
    (sharedReset (some i) (sharedReset (some i) h).1).2 = dtorTrace k ∧
    dtorTrace k ≠ [] := by
  have hlen : i < h.length := by
    by_contra hc
    push_neg at hc
    rw [List.getElem?_eq_none hc] at hv
    exact Option.noConfusion hv
  have hfst : sharedReset (some i) h = (h.set i ⟨k, 1⟩, []) := by
    simp [sharedReset, hv]
  have hget : (h.set i (⟨k, 1⟩ : SharedObj))[i]? = some ⟨k, 1⟩ :=
    List.getElem?_set_eq_of_lt _ hlen
  refine ⟨by rw [hfst], ?_, ?_, ?_⟩
  · rw [hfst]
    simp [useCount, hget]
  · rw [hfst]
    simp [sharedReset, hget]
  · cases k <;> decide

/-- C3 witness: a one-cell heap holding an `A` with use count 2. -/
theorem c3_two_owners_witness :
    ([⟨Kind.A, 2⟩] : Heap)[0]? = some ⟨Kind.A, 2⟩ ∧
    ((sharedReset (some 0) [⟨Kind.A, 2⟩]).2 = [] ∧
      useCount (some 0) (sharedReset (some 0) [⟨Kind.A, 2⟩]).1 = 1 ∧
      (sharedReset (some 0) (sharedReset (some 0) [⟨Kind.A, 2⟩]).1).2 =
        dtorTrace Kind.A ∧
      dtorTrace Kind.A ≠ []) :=
  ⟨by decide, c3_two_owners_destroy_once_after_last [⟨Kind.A, 2⟩] 0 Kind.A (by decide)⟩

/-- C4: calling the virtual `to_string` through a Base-typed owner of a
Derived instance runs the Derived override: the exclusive owner `ptrC`
(line 122) and the shared owner `basePtr` after the upcast
(line 172) both produce `"I am a B"`. -/
theorem c4_dispatch_through_base_typed_owner :
    uniqueToString ptrC = some "I am a B" ∧
    sharedToString basePtr castStep4.1 = some "I am a B" := by
  decide

/-- C5: the two co-owners `ptrA` and `ptrB` of lines 148–149 are
non-null, report the same address (`get()`) and the same `member`
value, namely `"A"`. -/
theorem c5_co_owners_same_identity :
    sPtrA ≠ none ∧
    sharedGet sPtrA = sharedGet sPtrB ∧
    sharedMember sPtrA sharedHeapLive = sharedMember sPtrB sharedHeapLive ∧
    sharedMember sPtrA sharedHeapLive = some "A" := by
  decide

/-- C6: at the print of line 158, with both co-owners live,
`ptrA.use_count()` is exactly 2, hence at least 2. -/
theorem c6_use_count_at_least_two :
    useCount sPtrA sharedHeapLive = 2 ∧ 2 ≤ useCount sPtrA sharedHeapLive := by
  decide

/-- C7: the claim says the explicit releases produce destruction events
in reverse-of-creation (derived-before-base) order.  The code releases
`ptrA` (the Base entity, created first) before `ptrB` (lines 117–118),
so the emitted trace starts with the Base entity's `"A Destroyed"` and
the derived teardown `"B:A Destoyed"` only comes afterwards —
creation order, not reverse-of-creation order. -/
theorem c7_release_trace_is_creation_order :
    uniqueReleaseTrace = ["A Destroyed", "B:A Destoyed", "A Destroyed"] ∧
    uniqueReleaseTrace.head? = some "A Destroyed" ∧
    uniqueReleaseTrace.head? ≠ some "B:A Destoyed" := by
  refine ⟨rfl, rfl, ?_⟩
  decide

/-- C8: at the final report (line 178), after the upcast assignment
into `basePtr` and the successful downcast into `downCastPtr`,
`derivedPtr.use_count()` is exactly 3. -/
theorem c8_final_use_count_is_three :
    useCount derivedPtr castHeapFinal = 3 := by
  decide

/-- C9: `modify_vector` preserves the length of the vector, and every
element of the result lies in `0 ≤ x < 10` (each element is assigned
`rand() % 10` with `rand()` non-negative). -/
theorem c9_modify_vector_length_and_range (r : Nat → Nat) (v : List Int) :
    (modify_vector r v).length = v.length ∧
    ∀ x ∈ modify_vector r v, 0 ≤ x ∧ x < 10 := by
  have key : ∀ (k : Nat) (w : List Int),
      (modifyVectorAux r k w).length = w.length ∧
        ∀ x ∈ modifyVectorAux r k w, 0 ≤ x ∧ x < 10 := by
    intro k w
    induction w generalizing k with
    | nil => exact ⟨rfl, by intro x hx; cases hx⟩
    | cons y ys ih =>
      refine ⟨by simp [modifyVectorAux, (ih (k + 1)).1], ?_⟩
      intro x hx
      rcases List.mem_cons.mp hx with hx | hx
      · subst hx
        refine ⟨Int.ofNat_nonneg _, ?_⟩
        exact_mod_cast Nat.mod_lt (r k) (by norm_num)
      · exact (ih (k + 1)).2 x hx
  exact key 0 v

/-- C9 witness: on `[5, -3, 100]` with the stream `n ↦ n + 7` the
result is `[7, 8, 9]`; the element 7 is in range. -/
theorem c9_modify_vector_witness :
    (modify_vector (fun n => n + 7) [5, -3, 100]).length = 3 ∧
    (7 : Int) ∈ modify_vector (fun n => n + 7) [5, -3, 100] ∧
    0 ≤ (7 : Int) ∧ (7 : Int) < 10 :=
  ⟨(c9_modify_vector_length_and_range (fun n => n + 7) [5, -3, 100]).1, by decide,
    (c9_modify_vector_length_and_range (fun n => n + 7) [5, -3, 100]).2 7 (by decide)⟩

/-- C10: `output_values` on `n` arguments prints exactly the arguments
in order, one per line, followed by the fixed final line, for a total
of `n + 1` lines. -/
theorem c10_output_values_lines (args : List String) :
    output_values args = args ++ [finalCallLine] ∧
    (output_values args).length = args.length + 1 := by
  have key : output_values args = args ++ [finalCallLine] := by
    induction args with
    | nil => rfl
    | cons x xs ih => simp [output_values, ih]
  exact ⟨key, by rw [key]; simp⟩
